import Mathlib

/-!
Verification development for the notehaven-shop client-side store logic.

The definitions below are shallow embeddings of the TypeScript sources:
* the cart store (CartContext: cartReducer, provider callbacks, cartStats,
  parseCartData, the cart initialization effect),
* the payment simulator (paymentService: processPayment,
  validatePaymentRequest) and the checkout flow (CheckoutPage.handleCheckout),
* the auth store (AuthContext: login, register, determineUserRole,
  parseUserData, the auth initialization effect),
* the order history page (OrdersPage order-loading effect).

Modelling conventions: JavaScript numbers are embedded as rationals (prices)
or integers (quantities); Date values as natural-number timestamps;
JSON.parse results as an explicit Json inductive, with none standing for a
parse exception on malformed text; Math.random draws and Date.now / generated
identifiers are passed in as explicit arguments, so the simulated asynchrony
becomes a deterministic function of those draws.  Whether the artificial
delay was awaited is recorded explicitly in the traces of the operations
that perform one.
-/

namespace NotehavenShop

/-- Cart item record (CartContext.CartItem).  The quantity field is optional
in the source; JavaScript reads it as `item.quantity || 1`. -/
structure CartItem where
  id : String
  title : String
  price : ℚ
  thumbnail : String
  seller : String
  subject : String
  addedAt : Nat
  quantity : Option Int
deriving Repr, DecidableEq

/-- JavaScript's `q || 1` on an optional number: undefined and 0 are falsy
and give 1. -/
def qOr1 (q : Option Int) : Int :=
  match q with
  | none => 1
  | some n => if n = 0 then 1 else n

/-- Cart state record (CartContext.CartState). -/
structure CartState where
  items : List CartItem
  isLoading : Bool
  error : Option String
deriving Repr, DecidableEq

/-- Cart reducer actions (CartContext.CartAction). -/
inductive CartAction where
  | setLoading (b : Bool)
  | setError (e : Option String)
  | setItems (items : List CartItem)
  | addItem (item : CartItem)
  | removeItem (id : String)
  | updateQuantity (id : String) (quantity : Int)
  | clearCart
  | clearError
deriving Repr, DecidableEq

/-- `items.findIndex(item => item.id === payload.id) !== -1`. -/
def hasId (items : List CartItem) (id : String) : Bool :=
  items.any (fun it => it.id == id)

/-- ADD_ITEM when the identifier is already present: the source locates the
first index with a matching id and replaces that entry, bumping
`(quantity || 1) + 1`; every other entry is kept unchanged. -/
def bumpFirst (items : List CartItem) (id : String) : List CartItem :=
  match items with
  | [] => []
  | it :: rest =>
    if it.id = id then { it with quantity := some (qOr1 it.quantity + 1) } :: rest
    else it :: bumpFirst rest id

/-- The cart reducer (CartContext.cartReducer). -/
def cartReducer (state : CartState) (action : CartAction) : CartState :=
  match action with
  | .setLoading b => { state with isLoading := b }
  | .setError e => { state with error := e, isLoading := false }
  | .setItems items => { state with items := items, isLoading := false, error := none }
  | .addItem payload =>
    if hasId state.items payload.id then
      { state with items := bumpFirst state.items payload.id, error := none }
    else
      { state with items := state.items ++ [payload], error := none }
  | .removeItem id =>
    { state with items := state.items.filter (fun it => it.id != id), error := none }
  | .updateQuantity id quantity =>
    { state with
      items := state.items.map (fun it =>
        if it.id = id then { it with quantity := some (max 1 quantity) } else it),
      error := none }
  | .clearCart => { state with items := [], error := none }
  | .clearError => { state with error := none }

/-- Initial cart state (CartContext.initialState). -/
def cartInitialState : CartState :=
  { items := [], isLoading := true, error := none }

/-- Provider callback addItem: stamps the payload with quantity 1 (and a
fresh addedAt timestamp, carried by the argument) before dispatching
ADD_ITEM. -/
def addItemOp (s : CartState) (item : CartItem) : CartState :=
  cartReducer s (.addItem { item with quantity := some 1 })

/-- Provider callback removeItem. -/
def removeItemOp (s : CartState) (id : String) : CartState :=
  cartReducer s (.removeItem id)

/-- Provider callback updateItemQuantity: a non-positive quantity removes the
entry, otherwise UPDATE_QUANTITY is dispatched. -/
def updateItemQuantityOp (s : CartState) (id : String) (quantity : Int) : CartState :=
  if quantity ≤ 0 then removeItemOp s id
  else cartReducer s (.updateQuantity id quantity)

/-- Provider callback clearCart. -/
def clearCartOp (s : CartState) : CartState :=
  cartReducer s .clearCart

/-- Derived cart statistics (the provider's cartStats useMemo); the display
string formattedTotalPrice is omitted, being a rendering of totalPrice. -/
structure CartStats where
  totalItems : Int
  totalPrice : ℚ
  uniqueItems : Nat
deriving Repr, DecidableEq

/-- cartStats as computed in the provider. -/
def cartStats (items : List CartItem) : CartStats :=
  { totalItems := items.foldl (fun sum it => sum + qOr1 it.quantity) 0
    totalPrice := items.foldl (fun sum it => sum + it.price * (qOr1 it.quantity : ℚ)) 0
    uniqueItems := items.length }

/-- Provider callback getItem (the identifier lookup the claims use). -/
def findItem (items : List CartItem) (id : String) : Option CartItem :=
  items.find? (fun it => it.id == id)

/-- The user-facing cart operations of the provider, for sequencing. -/
inductive CartOp where
  | add (item : CartItem)
  | remove (id : String)
  | update (id : String) (quantity : Int)
  | clear
deriving Repr, DecidableEq

/-- Apply one provider operation. -/
def applyOp (s : CartState) : CartOp → CartState
  | .add item => addItemOp s item
  | .remove id => removeItemOp s id
  | .update id q => updateItemQuantityOp s id q
  | .clear => clearCartOp s

/-- Run a sequence of provider operations from the empty initial cart. -/
def runOps (ops : List CartOp) : CartState :=
  ops.foldl applyOp cartInitialState

/-- The cart invariant: identifiers are pairwise distinct and every stored
quantity is an explicit positive integer. -/
def GoodItems (items : List CartItem) : Prop :=
  items.Pairwise (fun a b => a.id ≠ b.id) ∧
  ∀ it ∈ items, ∃ k : Int, it.quantity = some k ∧ 1 ≤ k

theorem goodItems_nil : GoodItems [] := ⟨List.Pairwise.nil, by simp⟩

theorem bumpFirst_id_eq (items : List CartItem) (id : String) :
    (bumpFirst items id).map (fun it => it.id) = items.map (fun it => it.id) := by
  induction items with
  | nil => rfl
  | cons it rest ih =>
    by_cases h : it.id = id <;> simp [bumpFirst, h, ih]

theorem bumpFirst_length (items : List CartItem) (id : String) :
    (bumpFirst items id).length = items.length := by
  have h := congrArg List.length (bumpFirst_id_eq items id)
  simpa using h

theorem bumpFirst_mem (items : List CartItem) (id : String) :
    ∀ it ∈ bumpFirst items id,
      it ∈ items ∨
      ∃ old ∈ items, it = { old with quantity := some (qOr1 old.quantity + 1) } := by
  induction items with
  | nil => simp [bumpFirst]
  | cons hd rest ih =>
    intro it hit
    by_cases h : hd.id = id
    · simp only [bumpFirst, if_pos h, List.mem_cons] at hit
      rcases hit with h1 | h2
      · exact Or.inr ⟨hd, List.mem_cons_self hd rest, h1⟩
      · exact Or.inl (List.mem_cons_of_mem hd h2)
    · simp only [bumpFirst, if_neg h, List.mem_cons] at hit
      rcases hit with h1 | h2
      · exact Or.inl (h1 ▸ List.mem_cons_self hd rest)
      · rcases ih it h2 with h3 | ⟨old, hold, heq⟩
        · exact Or.inl (List.mem_cons_of_mem hd h3)
        · exact Or.inr ⟨old, List.mem_cons_of_mem hd hold, heq⟩

/-- Pairwise distinctness of identifiers only depends on the id projection. -/
theorem pairwise_of_map_id_eq {l1 l2 : List CartItem}
    (h : l1.map (fun it => it.id) = l2.map (fun it => it.id))
    (hp : l2.Pairwise (fun a b => a.id ≠ b.id)) :
    l1.Pairwise (fun a b => a.id ≠ b.id) := by
  have h2 : (l2.map (fun it => it.id)).Pairwise (fun a b => a ≠ b) :=
    List.pairwise_map.mpr hp
  have h1 : (l1.map (fun it => it.id)).Pairwise (fun a b => a ≠ b) := h ▸ h2
  exact List.pairwise_map.mp h1

theorem goodItems_applyOp (s : CartState) (hs : GoodItems s.items) (op : CartOp) :
    GoodItems (applyOp s op).items := by
  obtain ⟨hpw, hq⟩ := hs
  cases op with
  | add item =>
    show GoodItems (addItemOp s item).items
    unfold addItemOp cartReducer
    by_cases hmem : hasId s.items ({ item with quantity := some 1 } : CartItem).id
    · simp only [if_pos hmem]
      refine ⟨pairwise_of_map_id_eq (bumpFirst_id_eq s.items _) hpw, ?_⟩
      intro it hit
      rcases bumpFirst_mem s.items _ it hit with h1 | ⟨old, hold, heq⟩
      · exact hq it h1
      · obtain ⟨k, hk, hk1⟩ := hq old hold
        refine ⟨qOr1 old.quantity + 1, by simp [heq], ?_⟩
        have : qOr1 old.quantity = k := by
          simp [qOr1, hk]
          intro h0
          omega
        omega
    · simp only [if_neg hmem]
      constructor
      · rw [List.pairwise_append]
        refine ⟨hpw, by simp, ?_⟩
        intro a ha b hb
        simp only [List.mem_singleton] at hb
        subst hb
        intro hab
        apply hmem
        unfold hasId
        rw [List.any_eq_true]
        exact ⟨a, ha, by simp [hab]⟩
      · intro it hit
        rcases List.mem_append.mp hit with h1 | h2
        · exact hq it h1
        · simp only [List.mem_singleton] at h2
          exact ⟨1, by simp [h2], le_refl 1⟩
  | remove id =>
    show GoodItems (removeItemOp s id).items
    unfold removeItemOp cartReducer
    refine ⟨hpw.sublist (List.filter_sublist _), ?_⟩
    intro it hit
    exact hq it (List.mem_of_mem_filter hit)
  | update id q =>
    show GoodItems (updateItemQuantityOp s id q).items
    unfold updateItemQuantityOp
    by_cases hle : q ≤ 0
    · simp only [if_pos hle]
      unfold removeItemOp cartReducer
      refine ⟨hpw.sublist (List.filter_sublist _), ?_⟩
      intro it hit
      exact hq it (List.mem_of_mem_filter hit)
    · simp only [if_neg hle]
      unfold cartReducer
      constructor
      · apply pairwise_of_map_id_eq ?_ hpw
        rw [List.map_map]
        apply List.map_congr_left
        intro it _
        by_cases h : it.id = id <;> simp [h]
      · intro it hit
        rcases List.mem_map.mp hit with ⟨old, hold, heq⟩
        by_cases h : old.id = id
        · simp only [if_pos h] at heq
          exact ⟨max 1 q, by simp [← heq], le_max_left 1 q⟩
        · simp only [if_neg h] at heq
          exact heq ▸ hq old hold
  | clear =>
    exact goodItems_nil

theorem goodItems_runOps (ops : List CartOp) : GoodItems (runOps ops).items := by
  suffices h : ∀ s : CartState, GoodItems s.items → GoodItems (ops.foldl applyOp s).items by
    exact h cartInitialState goodItems_nil
  induction ops with
  | nil => intro s hs; exact hs
  | cons op rest ih =>
    intro s hs
    exact ih (applyOp s op) (goodItems_applyOp s hs op)

theorem foldl_add_eq_sum {M : Type} [AddCommMonoid M] (f : CartItem → M) :
    ∀ (l : List CartItem) (a : M), l.foldl (fun s it => s + f it) a = a + (l.map f).sum := by
  intro l
  induction l with
  | nil => simp
  | cons hd rest ih =>
    intro a
    simp [ih, add_assoc]

theorem find?_bumpFirst (items : List CartItem) (id : String) (old : CartItem)
    (h : items.find? (fun it => it.id == id) = some old) :
    (bumpFirst items id).find? (fun it => it.id == id)
      = some { old with quantity := some (qOr1 old.quantity + 1) } := by
  induction items with
  | nil => simp [List.find?] at h
  | cons hd rest ih =>
    by_cases hid : hd.id = id
    · rw [List.find?_cons_of_pos _ (by simp [hid])] at h
      injection h with h
      subst h
      simp only [bumpFirst, if_pos hid]
      exact List.find?_cons_of_pos _ (by simp [hid])
    · rw [List.find?_cons_of_neg _ (by simp [hid])] at h
      simp only [bumpFirst, if_neg hid]
      rw [List.find?_cons_of_neg _ (by simp [hid])]
      exact ih h

theorem hasId_of_find? (items : List CartItem) (id : String) (old : CartItem)
    (h : items.find? (fun it => it.id == id) = some old) : hasId items id = true := by
  unfold hasId
  rw [List.any_eq_true]
  have hmem : old ∈ items := List.mem_of_find?_eq_some h
  have hp := List.find?_some h
  exact ⟨old, hmem, hp⟩

/-- Sample cart items used to instantiate hypotheses of the claim theorems. -/
def sampleItemA : CartItem :=
  { id := "note-1", title := "Algebra Notes", price := 5, thumbnail := "thumb-1",
    seller := "Ann", subject := "Math", addedAt := 0, quantity := none }

/-- A cart item priced 15.99 with explicit quantity 1 (the worked example of
the derived-totals claim). -/
def item1599 : CartItem :=
  { id := "note-2", title := "Calculus Notes", price := 1599/100, thumbnail := "thumb-2",
    seller := "Bo", subject := "Math", addedAt := 0, quantity := some 1 }

/-- A small concrete cart state for witnesses. -/
def sampleState : CartState :=
  { items := [{ sampleItemA with quantity := some 1 }], isLoading := false, error := none }

/-- C1: along every sequence of provider cart operations from the empty cart,
identifiers are pairwise distinct; the derived totalItems statistic equals
the sum of the stored entry quantities; and adding an item whose identifier
is already present leaves the number of entries unchanged and bumps that
entry's quantity by one. -/
theorem C1_cart_invariant (ops : List CartOp) :
    ((runOps ops).items.Pairwise (fun a b => a.id ≠ b.id))
    ∧ (cartStats (runOps ops).items).totalItems
        = ((runOps ops).items.map (fun it => it.quantity.getD 1)).sum
    ∧ ∀ item old, findItem (runOps ops).items item.id = some old →
        (addItemOp (runOps ops) item).items.length = (runOps ops).items.length
        ∧ findItem (addItemOp (runOps ops) item).items item.id
            = some { old with quantity := some (qOr1 old.quantity + 1) } := by
  obtain ⟨hpw, hq⟩ := goodItems_runOps ops
  refine ⟨hpw, ?_, ?_⟩
  · show (runOps ops).items.foldl (fun sum it => sum + qOr1 it.quantity) 0 = _
    rw [foldl_add_eq_sum (fun it => qOr1 it.quantity) (runOps ops).items 0, zero_add]
    congr 1
    apply List.map_congr_left
    intro it hit
    obtain ⟨k, hk, hk1⟩ := hq it hit
    simp [qOr1, hk]
    omega
  · intro item old hfind
    have hmem : hasId (runOps ops).items item.id = true :=
      hasId_of_find? _ _ _ hfind
    have hstep : (addItemOp (runOps ops) item).items
        = bumpFirst (runOps ops).items item.id := by
      simp [addItemOp, cartReducer, hmem]
    rw [hstep]
    exact ⟨bumpFirst_length _ _, find?_bumpFirst _ _ _ hfind⟩

/-- Witness for C1 at a concrete input: after adding sampleItemA once, its
entry carries quantity 1; adding it again keeps a single entry and bumps the
quantity to 2. -/
theorem C1_cart_invariant_witness :
    findItem (runOps [CartOp.add sampleItemA]).items sampleItemA.id
        = some { sampleItemA with quantity := some 1 }
    ∧ (addItemOp (runOps [CartOp.add sampleItemA]) sampleItemA).items.length = 1
    ∧ findItem (addItemOp (runOps [CartOp.add sampleItemA]) sampleItemA).items sampleItemA.id
        = some { sampleItemA with quantity := some 2 } := by
  have hf : findItem (runOps [CartOp.add sampleItemA]).items sampleItemA.id
      = some { sampleItemA with quantity := some 1 } := by decide
  have h := (C1_cart_invariant [CartOp.add sampleItemA]).2.2 sampleItemA
    { sampleItemA with quantity := some 1 } hf
  refine ⟨hf, ?_, ?_⟩
  · rw [h.1]; decide
  · rw [h.2]; decide

/-- C5: updateItemQuantity with a non-positive quantity coincides with
removeItem; with a quantity of at least 1 it maps the entry with the given
identifier to the same entry with quantity set to max 1 qty. -/
theorem C5_updateQuantity_semantics (s : CartState) (id : String) (q : Int) :
    (q ≤ 0 → updateItemQuantityOp s id q = removeItemOp s id)
    ∧ (1 ≤ q → (updateItemQuantityOp s id q).items
        = s.items.map (fun it =>
            if it.id = id then { it with quantity := some (max 1 q) } else it)) := by
  constructor
  · intro h
    simp [updateItemQuantityOp, h]
  · intro h
    have h0 : ¬ q ≤ 0 := by omega
    simp [updateItemQuantityOp, h0, cartReducer]

/-- Witness for C5: quantity 0 removes the sample entry; quantity 5 sets the
stored quantity to 5. -/
theorem C5_updateQuantity_semantics_witness :
    ((0 : Int) ≤ 0 ∧ updateItemQuantityOp sampleState "note-1" 0
        = removeItemOp sampleState "note-1")
    ∧ ((1 : Int) ≤ 5 ∧ (updateItemQuantityOp sampleState "note-1" 5).items
        = [{ sampleItemA with quantity := some 5 }]) := by
  have h0 := (C5_updateQuantity_semantics sampleState "note-1" 0).1 (le_refl 0)
  have h5 := (C5_updateQuantity_semantics sampleState "note-1" 5).2 (by decide)
  refine ⟨⟨le_refl 0, h0⟩, ⟨by decide, ?_⟩⟩
  rw [h5]
  decide

/-- C10: with quantity at least 1, updateItemQuantity is a pure frame
operation: an identifier absent from the cart leaves the item list unchanged
(no entry is created), and position by position the only change is that the
matching entry's quantity becomes q, all its other fields and all other
entries being untouched. -/
theorem C10_update_frame (s : CartState) (id : String) (q : Int) (hq : 1 ≤ q) :
    ((∀ it ∈ s.items, it.id ≠ id) → (updateItemQuantityOp s id q).items = s.items)
    ∧ ∀ i : Nat, (updateItemQuantityOp s id q).items[i]?
        = (s.items[i]?).map (fun it =>
            if it.id = id then { it with quantity := some q } else it) := by
  have h0 : ¬ q ≤ 0 := by omega
  have hmax : max 1 q = q := max_eq_right hq
  have hitems : (updateItemQuantityOp s id q).items
      = s.items.map (fun it => if it.id = id then { it with quantity := some q } else it) := by
    simp [updateItemQuantityOp, h0, cartReducer, hmax]
  constructor
  · intro habs
    rw [hitems]
    have hcong : s.items.map (fun it =>
        if it.id = id then { it with quantity := some q } else it)
        = s.items.map (fun it => it) :=
      List.map_congr_left (fun it hit => by simp [habs it hit])
    simpa using hcong
  · intro i
    rw [hitems]
    simp

/-- Witness for C10: quantity 2 on an absent identifier leaves the sample
cart unchanged, and on the present identifier rewrites only that entry's
quantity. -/
theorem C10_update_frame_witness :
    ((1 : Int) ≤ 2)
    ∧ (updateItemQuantityOp sampleState "absent" 2).items = sampleState.items
    ∧ (updateItemQuantityOp sampleState "note-1" 2).items[0]?
        = some { sampleItemA with quantity := some 2 } := by
  have habs := (C10_update_frame sampleState "absent" 2 (by decide)).1 (by decide)
  have hidx := (C10_update_frame sampleState "note-1" 2 (by decide)).2 0
  refine ⟨by decide, habs, ?_⟩
  rw [hidx]
  decide

/-- Order summary totals as derived in CartPage/CheckoutPage (subtotal,
tax = subtotal * 0.1, total = subtotal * 1.1). -/
structure OrderSummary where
  subtotal : ℚ
  tax : ℚ
  total : ℚ
deriving Repr, DecidableEq

/-- cartSummary useMemo over the derived total price. -/
def cartSummary (totalPrice : ℚ) : OrderSummary :=
  { subtotal := totalPrice
    tax := totalPrice * (1/10)
    total := totalPrice * (11/10) }

/-- C4: for every cart the derived summary has subtotal equal to the sum of
price times quantity over all entries, tax equal to a tenth of the subtotal
and total equal to eleven tenths of the subtotal; the one-item cart priced
15.99 with quantity 1 yields subtotal 15.99, tax 1.599 and total 17.589. -/
theorem C4_derived_totals (items : List CartItem) :
    (cartSummary (cartStats items).totalPrice).subtotal
        = (items.map (fun it => it.price * (qOr1 it.quantity : ℚ))).sum
    ∧ (cartSummary (cartStats items).totalPrice).tax
        = (cartStats items).totalPrice * (1/10)
    ∧ (cartSummary (cartStats items).totalPrice).total
        = (cartStats items).totalPrice * (11/10)
    ∧ cartSummary (cartStats [item1599]).totalPrice
        = { subtotal := 1599/100, tax := 1599/1000, total := 17589/1000 } := by
  refine ⟨?_, rfl, rfl, ?_⟩
  · show (cartStats items).totalPrice = _
    show items.foldl (fun sum it => sum + it.price * (qOr1 it.quantity : ℚ)) 0 = _
    rw [foldl_add_eq_sum (fun it => it.price * (qOr1 it.quantity : ℚ)) items 0, zero_add]
  · show cartSummary ([item1599].foldl (fun sum it => sum + it.price * (qOr1 it.quantity : ℚ)) 0) = _
    norm_num [item1599, qOr1, cartSummary]

/-- A minimal JSON value model for the persisted-storage round trips. -/
inductive Json where
  | null
  | bool (b : Bool)
  | num (q : ℚ)
  | str (s : String)
  | arr (elems : List Json)
  | obj (fields : List (String × Json))

/-- Object field lookup on a JSON value. -/
def jsonField (j : Json) (key : String) : Option Json :=
  match j with
  | .obj fields => (fields.find? (fun p => p.1 == key)).map (fun p => p.2)
  | _ => none

/-- Read a string-valued field, defaulting to the empty string. -/
def jsonFieldStr (j : Json) (key : String) : String :=
  match jsonField j key with
  | some (.str s) => s
  | _ => ""

/-- Read a number-valued field, defaulting to zero. -/
def jsonFieldNum (j : Json) (key : String) : ℚ :=
  match jsonField j key with
  | some (.num q) => q
  | _ => 0

/-- Revival of one persisted cart entry (the map in parseCartData): the
source spreads the raw object and normalizes addedAt via
new Date(item.addedAt or Date.now()) and quantity via item.quantity or 1.
The unchecked TS spread is rendered as field extraction with defaults;
string-encoded dates are abstracted to the numeric timestamp now and
fractional persisted quantities floored to the integral quantity model.
No claim depends on the details of this branch. -/
def reviveCartItem (j : Json) (now : Nat) : CartItem :=
  { id := jsonFieldStr j "id"
    title := jsonFieldStr j "title"
    price := jsonFieldNum j "price"
    thumbnail := jsonFieldStr j "thumbnail"
    seller := jsonFieldStr j "seller"
    subject := jsonFieldStr j "subject"
    addedAt :=
      match jsonField j "addedAt" with
      | some (.num t) => if t = 0 then now else (Rat.floor t).toNat
      | _ => now
    quantity :=
      some (match jsonField j "quantity" with
        | some (.num qn) => if qn = 0 then 1 else Rat.floor qn
        | _ => 1) }

/-- Safe parse of the persisted cart text (CartContext.parseCartData).  The
argument is the result of JSON.parse on the stored string, with none for
the exception raised on malformed text; any exception, including the
explicit throw on a non-array value, lands in the catch that returns []. -/
def parseCartData (parsed : Option Json) (now : Nat) : List CartItem :=
  match parsed with
  | some (Json.arr elems) => elems.map (fun j => reviveCartItem j now)
  | _ => []

/-- The cart initialization effect (CartProvider's initializeCart): when the
persisted slot holds a string the parse result is dispatched as SET_ITEMS,
otherwise only the loading flag is cleared.  The slot is Option (Option
Json): outer none is an absent key, inner none a JSON.parse exception. -/
def initializeCart (saved : Option (Option Json)) (now : Nat) (s : CartState) : CartState :=
  match saved with
  | some parsed => cartReducer s (.setItems (parseCartData parsed now))
  | none => cartReducer s (.setLoading false)

/-- C7: for every corrupted persisted cart value - malformed JSON or valid
JSON that is not an array - initialization from that value completes (the
parse error is caught) and yields the empty item list, with no error state. -/
theorem C7_corrupt_cart_empty (parsed : Option Json) (now : Nat)
    (h : ∀ elems, parsed ≠ some (Json.arr elems)) :
    initializeCart (some parsed) now cartInitialState
      = { items := [], isLoading := false, error := none } := by
  have hp : parseCartData parsed now = [] := by
    match parsed with
    | none => rfl
    | some Json.null => rfl
    | some (Json.bool b) => rfl
    | some (Json.num q) => rfl
    | some (Json.str s) => rfl
    | some (Json.obj fields) => rfl
    | some (Json.arr elems) => exact absurd rfl (h elems)
  simp [initializeCart, hp, cartReducer, cartInitialState]

/-- Witness for C7 at two corrupted inputs: malformed text (parse exception)
and a non-array JSON object. -/
theorem C7_corrupt_cart_empty_witness :
    initializeCart (some none) 0 cartInitialState
      = { items := [], isLoading := false, error := none }
    ∧ initializeCart (some (some (Json.str "oops"))) 0 cartInitialState
      = { items := [], isLoading := false, error := none } := by
  constructor
  · exact C7_corrupt_cart_empty none 0 (fun elems h => Option.noConfusion h)
  · exact C7_corrupt_cart_empty (some (Json.str "oops")) 0
      (fun elems h => Json.noConfusion (Option.some.inj h))

/-- Supported payment methods (paymentService.PaymentMethod). -/
inductive PaymentMethod where
  | stripe
  | paypal
  | razorpay
  | applePay
  | googlePay
deriving Repr, DecidableEq

/-- Payment status (paymentService.PaymentStatus). -/
inductive PaymentStatus where
  | pending
  | processing
  | completed
  | failed
  | cancelled
deriving Repr, DecidableEq

/-- One line item of a payment request (also the shape of order items). -/
structure PaymentLineItem where
  id : String
  title : String
  price : ℚ
  quantity : Int
deriving Repr, DecidableEq

/-- Customer contact info of a payment request. -/
structure CustomerInfo where
  email : String
  name : String
deriving Repr, DecidableEq

/-- Payment request (paymentService.PaymentRequest). -/
structure PaymentRequest where
  amount : ℚ
  currency : String
  method : PaymentMethod
  items : List PaymentLineItem
  customerInfo : CustomerInfo
deriving Repr, DecidableEq

/-- Payment response (paymentService.PaymentResponse). -/
structure PaymentResponse where
  success : Bool
  transactionId : Option String
  status : PaymentStatus
  message : String
  redirectUrl : Option String
  error : Option String
deriving Repr, DecidableEq

/-- Per-method success rates (the successRates table). -/
def successRate : PaymentMethod → ℚ
  | .stripe => 95/100
  | .paypal => 92/100
  | .razorpay => 90/100
  | .applePay => 97/100
  | .googlePay => 96/100

/-- The canned failure reasons, in source order. -/
def failureReasons : List String :=
  ["Insufficient funds", "Payment method declined", "Network timeout",
   "Invalid payment details"]

/-- The upper-cased method label interpolated into the success message. -/
def methodLabel : PaymentMethod → String
  | .stripe => "STRIPE"
  | .paypal => "PAYPAL"
  | .razorpay => "RAZORPAY"
  | .applePay => "APPLE_PAY"
  | .googlePay => "GOOGLE_PAY"

/-- Display-only rendering of amount.toFixed(2); the digit string is not
load-bearing for any claim, so the default rational rendering stands in. -/
def fmtAmount (q : ℚ) : String := toString q

/-- The failure reason drawn by failures[Math.floor(Math.random() * 4)]:
an out-of-range index (impossible for a draw in [0,1)) reads as undefined,
here none. -/
def pickFailure (failRand : ℚ) : Option String :=
  match ⌊failRand * 4⌋ with
  | .ofNat n => failureReasons.get? n
  | .negSucc _ => none

/-- The outcome of one simulated payment, recording whether the artificial
network delay was awaited before the response was produced. -/
structure PaymentOutcome where
  delayed : Bool
  response : PaymentResponse
deriving Repr, DecidableEq

/-- processPayment (paymentService.processPayment): awaits the simulated
network delay, then flips a success coin against the per-method rate (the
isSuccess binding of the source, inlined); the Math.random draws and the
synthesized transaction identifier are explicit arguments.  The source
performs no validation whatsoever here. -/
def processPayment (req : PaymentRequest) (coin : ℚ) (failRand : ℚ)
    (txnId : String) : PaymentOutcome :=
  if coin < successRate req.method then
    { delayed := true
      response :=
        { success := true
          transactionId := some txnId
          status := .completed
          message := "Payment of " ++ req.currency ++ " " ++ fmtAmount req.amount
            ++ " processed successfully via " ++ methodLabel req.method
          redirectUrl := none
          error := none } }
  else
    { delayed := true
      response :=
        { success := false
          transactionId := none
          status := .failed
          message := "Payment failed"
          redirectUrl := none
          error := pickFailure failRand } }

/-- validatePaymentRequest (paymentService.validatePaymentRequest), in push
order.  Over rationals, request.amount falsy-or-nonpositive collapses to
amount nonpositive (zero is the only falsy number); the never-satisfiable
check on request.method (always one of the five nonempty enum strings) is
dropped. -/
def validatePaymentRequest (req : PaymentRequest) : List String :=
  (if req.amount ≤ 0 then ["Invalid payment amount"] else [])
  ++ (if req.currency = "" then ["Currency is required"] else [])
  ++ (if req.items = [] then ["No items to purchase"] else [])
  ++ (if req.customerInfo.email = "" then ["Customer email is required"] else [])
  ++ (if req.customerInfo.name = "" then ["Customer name is required"] else [])

/-- The payment request the checkout page assembles from the cart
(CheckoutPage.handleCheckout): amount is the taxed grand total. -/
def buildPaymentRequest (items : List CartItem) (customer : CustomerInfo)
    (method : PaymentMethod) : PaymentRequest :=
  { amount := (cartSummary (cartStats items).totalPrice).total
    currency := "USD"
    method := method
    items := items.map (fun it =>
      { id := it.id, title := it.title, price := it.price, quantity := qOr1 it.quantity })
    customerInfo := customer }

/-- Where a checkout attempt ends (CheckoutPage.handleCheckout): the
empty-cart guard, the validation early return, or a processed payment. -/
inductive CheckoutResult where
  | emptyCartAbort
  | validationAbort (errors : List String)
  | paid (outcome : PaymentOutcome)
deriving Repr, DecidableEq

/-- handleCheckout: guards on an empty cart, builds the request, validates
it, and only then invokes processPayment. -/
def handleCheckout (items : List CartItem) (customer : CustomerInfo)
    (method : PaymentMethod) (coin failRand : ℚ) (txnId : String) : CheckoutResult :=
  if items = [] then .emptyCartAbort
  else
    let req := buildPaymentRequest items customer method
    let errors := validatePaymentRequest req
    if errors ≠ [] then .validationAbort errors
    else .paid (processPayment req coin failRand txnId)

/-- A request with an empty line-item list, for the C3 counterexample. -/
def emptyItemsRequest : PaymentRequest :=
  { amount := 10
    currency := "USD"
    method := .stripe
    items := []
    customerInfo := { email := "jo@x.co", name := "Jo" } }

/-- A well-formed request with one line item, for the C9 witness. -/
def fullRequest : PaymentRequest :=
  { amount := 17589/1000
    currency := "USD"
    method := .stripe
    items := [{ id := "note-2", title := "Calculus Notes", price := 1599/100, quantity := 1 }]
    customerInfo := { email := "jo@x.co", name := "Jo" } }

/-- C3 counterexample: processPayment performs no validation at all; on a
request whose line-item list is empty it still enters the artificial-delay
and probability path and returns an ordinary simulated outcome, not the
validation errors. -/
theorem C3_counterexample :
    emptyItemsRequest.items = []
    ∧ (processPayment emptyItemsRequest 0 0 "txn-1").delayed = true
    ∧ (processPayment emptyItemsRequest 0 0 "txn-1").response.success = true
    ∧ (processPayment emptyItemsRequest 0 0 "txn-1").response.status = PaymentStatus.completed := by
  have hc : (0 : ℚ) < successRate emptyItemsRequest.method := by
    norm_num [successRate, emptyItemsRequest]
  refine ⟨rfl, ?_, ?_, ?_⟩ <;> simp [processPayment, hc]

/-- C3 amended: the validation lives outside processPayment.  For every
request with an empty line-item list, validatePaymentRequest reports the
missing-items error, while processPayment itself always awaits the delay
and enters the probability path; the checkout flow never reaches
processPayment for an empty cart. -/
theorem C3_validation_outside (req : PaymentRequest) (coin failRand : ℚ) (txnId : String)
    (hempty : req.items = []) :
    "No items to purchase" ∈ validatePaymentRequest req
    ∧ (processPayment req coin failRand txnId).delayed = true
    ∧ (∀ customer method c f t outcome,
        handleCheckout ([] : List CartItem) customer method c f t ≠ .paid outcome)
    ∧ ∀ (cartItems : List CartItem) customer method c f t,
        validatePaymentRequest (buildPaymentRequest cartItems customer method) ≠ [] →
        ∀ outcome, handleCheckout cartItems customer method c f t ≠ .paid outcome := by
  refine ⟨?_, ?_, ?_, ?_⟩
  · simp [validatePaymentRequest, hempty]
  · unfold processPayment
    split <;> rfl
  · intro customer method c f t outcome
    simp [handleCheckout]
  · intro cartItems customer method c f t hval outcome
    unfold handleCheckout
    by_cases hnil : cartItems = []
    · simp [hnil]
    · simp only [if_neg hnil, if_pos hval]
      simp

/-- Witness for C3's amended statement at the concrete empty request. -/
theorem C3_validation_outside_witness :
    emptyItemsRequest.items = []
    ∧ "No items to purchase" ∈ validatePaymentRequest emptyItemsRequest
    ∧ (processPayment emptyItemsRequest 0 0 "txn-1").delayed = true
    ∧ handleCheckout ([] : List CartItem) { email := "jo@x.co", name := "Jo" }
        PaymentMethod.stripe 0 0 "txn-1"
      ≠ CheckoutResult.paid (processPayment emptyItemsRequest 0 0 "txn-1") := by
  have h := C3_validation_outside emptyItemsRequest 0 0 "txn-1" rfl
  exact ⟨rfl, h.1, h.2.1,
    h.2.2.1 { email := "jo@x.co", name := "Jo" } PaymentMethod.stripe 0 0 "txn-1" _⟩

theorem pickFailure_mem (failRand : ℚ) (h0 : 0 ≤ failRand) (h1 : failRand < 1) :
    ∃ e ∈ failureReasons, pickFailure failRand = some e := by
  have hge : (0 : ℤ) ≤ ⌊failRand * 4⌋ := by
    apply Int.le_floor.mpr
    push_cast
    positivity
  have hlt : ⌊failRand * 4⌋ < 4 := by
    apply Int.floor_lt.mpr
    push_cast
    nlinarith
  unfold pickFailure
  set i := ⌊failRand * 4⌋ with hi
  clear_value i
  interval_cases i
  · exact ⟨"Insufficient funds", by simp [failureReasons], rfl⟩
  · exact ⟨"Payment method declined", by simp [failureReasons], rfl⟩
  · exact ⟨"Network timeout", by simp [failureReasons], rfl⟩
  · exact ⟨"Invalid payment details", by simp [failureReasons], rfl⟩

/-- C9: shape invariant of every processPayment result for random draws in
[0,1): success implies status completed with the transaction identifier
present and no error; failure implies status failed, no transaction
identifier, and an error drawn from the four canned failure reasons. -/
theorem C9_response_shape (req : PaymentRequest) (coin failRand : ℚ) (txnId : String)
    (h0 : 0 ≤ failRand) (h1 : failRand < 1) :
    ((processPayment req coin failRand txnId).response.success = true →
      (processPayment req coin failRand txnId).response.status = PaymentStatus.completed
      ∧ (processPayment req coin failRand txnId).response.transactionId = some txnId
      ∧ (processPayment req coin failRand txnId).response.error = none)
    ∧ ((processPayment req coin failRand txnId).response.success = false →
      (processPayment req coin failRand txnId).response.status = PaymentStatus.failed
      ∧ (processPayment req coin failRand txnId).response.transactionId = none
      ∧ ∃ e ∈ failureReasons,
          (processPayment req coin failRand txnId).response.error = some e) := by
  unfold processPayment
  by_cases hc : coin < successRate req.method
  · rw [if_pos hc]
    constructor
    · intro _
      exact ⟨rfl, rfl, rfl⟩
    · intro hfalse
      exact absurd hfalse (by simp)
  · rw [if_neg hc]
    constructor
    · intro htrue
      exact absurd htrue (by simp)
    · intro _
      exact ⟨rfl, rfl, pickFailure_mem failRand h0 h1⟩

/-- Witness for C9 at a concrete failing draw: coin 1 fails against the
stripe rate, and failure draw one half selects the third canned reason. -/
theorem C9_response_shape_witness :
    (0 : ℚ) ≤ 1/2 ∧ (1/2 : ℚ) < 1
    ∧ (processPayment fullRequest 1 (1/2) "txn-9").response.success = false
    ∧ (processPayment fullRequest 1 (1/2) "txn-9").response.status = PaymentStatus.failed
    ∧ (processPayment fullRequest 1 (1/2) "txn-9").response.transactionId = none
    ∧ ∃ e ∈ failureReasons,
        (processPayment fullRequest 1 (1/2) "txn-9").response.error = some e := by
  have hc : ¬ ((1 : ℚ) < successRate fullRequest.method) := by
    norm_num [successRate, fullRequest]
  have hs : (processPayment fullRequest 1 (1/2) "txn-9").response.success = false := by
    simp [processPayment, hc]
  have h := (C9_response_shape fullRequest 1 (1/2) "txn-9" (by norm_num) (by norm_num)).2 hs
  exact ⟨by norm_num, by norm_num, hs, h.1, h.2.1, h.2.2⟩

/-- User roles (constants.USER_ROLES). -/
inductive UserRole where
  | buyer
  | seller
  | admin
deriving Repr, DecidableEq

/-- Authentication error kinds (AuthContext.AuthErrorType). -/
inductive AuthErrorType where
  | invalidCredentials
  | userExists
  | networkError
  | invalidEmail
  | weakPassword
  | storageError
deriving Repr, DecidableEq

/-- User entity (AuthContext.User). -/
structure User where
  id : String
  email : String
  name : String
  role : UserRole
  avatar : Option String
  createdAt : Nat
  lastLoginAt : Option Nat
deriving Repr, DecidableEq

/-- Substring containment, modelling String.prototype.includes. -/
def strIncludes (s sub : String) : Bool :=
  decide (sub.toList <:+: s.toList)

/-- Splitting a character list at every occurrence of a separator character,
modelling String.prototype.split with a one-character separator. -/
def splitOnChar (l : List Char) (c : Char) : List (List Char) :=
  match l with
  | [] => [[]]
  | x :: xs =>
    if x = c then [] :: splitOnChar xs c
    else
      match splitOnChar xs c with
      | [] => [[x]]
      | y :: ys => (x :: y) :: ys

/-- Lower-casing, modelling String.prototype.toLowerCase. -/
def jsToLower (s : String) : String :=
  ⟨s.toList.map Char.toLower⟩

/-- Whitespace trimming at both ends, modelling String.prototype.trim. -/
def jsTrim (s : String) : String :=
  ⟨(((s.toList.dropWhile Char.isWhitespace).reverse.dropWhile
      Char.isWhitespace).reverse)⟩

/-- Modelled from the spec: isValidEmail lives in src/lib/utils, a file that
is not among the sources; the spec says only that login and register
validate the email format, that "not-an-email" fails the check and that
"seller@x.com" passes it.  We model the usual format check: exactly one
at-sign separating a nonempty local part from a domain containing a dot. -/
def isValidEmail (email : String) : Bool :=
  match splitOnChar email.toList '@' with
  | [localPart, domain] => (!localPart.isEmpty) && domain.contains '.'
  | _ => false

/-- Password strength validation (AuthContext.validatePassword). -/
def validatePassword (password : String) : Bool :=
  password.length ≥ 6

/-- Demo role derivation from the email (AuthContext.determineUserRole);
only login calls this. -/
def determineUserRole (email : String) : UserRole :=
  if strIncludes email "admin" then .admin
  else if strIncludes email "seller" then .seller
  else .buyer

/-- Avatar URL synthesis (AuthContext.generateAvatarUrl); the
encodeURIComponent percent-encoding of the seed is display-only and elided. -/
def generateAvatarUrl (email : String) : String :=
  "https://api.dicebear.com/7.x/avataaars/svg?seed=" ++ email

/-- parseUserData: the persisted-user JSON round trip, which rejects records
whose id, email or name is missing or falsy (the role, one of three nonempty
enum strings, is always truthy).  The structured record stands for the
serialized JSON text. -/
def parseUserData (u : User) : Option User :=
  if u.id = "" ∨ u.email = "" ∨ u.name = "" then none else some u

/-- The auth initialization effect (AuthProvider's initializeAuth): an absent
slot or a parse rejection leaves the session anonymous, otherwise the parsed
user becomes the session. -/
def initializeAuth (stored : Option User) : Option User :=
  match stored with
  | some u => parseUserData u
  | none => none

/-- The observable outcome of one login or register call: whether the
artificial API delay was awaited, the result, and the persisted-user slot
after the call (saveUserData is assumed not to hit a storage write error,
whose path is not under claim). -/
structure AuthTrace where
  delayed : Bool
  result : Except AuthErrorType User
  storedUser : Option User

/-- login (AuthContext.login): email format and password checks come before
the simulated API delay; on success a mock user is synthesized from the
email, persisted, and set as the session. -/
def login (email password : String) (freshId : String) (now : Nat)
    (stored : Option User) : AuthTrace :=
  if !isValidEmail email then
    { delayed := false, result := .error .invalidEmail, storedUser := stored }
  else if !validatePassword password then
    { delayed := false, result := .error .weakPassword, storedUser := stored }
  else
    let mockUser : User :=
      { id := freshId
        email := jsTrim (jsToLower email)
        name := String.mk ((splitOnChar email.toList '@').headD [])
        role := determineUserRole email
        avatar := some (generateAvatarUrl email)
        createdAt := now
        lastLoginAt := some now }
    { delayed := true, result := .ok mockUser, storedUser := some mockUser }

/-- register (AuthContext.register): validates email, password and nonempty
name before the delay; the role parameter defaults to buyer and is stored
as passed - register never consults determineUserRole. -/
def register (email password name : String) (freshId : String) (now : Nat)
    (stored : Option User) (role : UserRole := .buyer) : AuthTrace :=
  if !isValidEmail email then
    { delayed := false, result := .error .invalidEmail, storedUser := stored }
  else if !validatePassword password then
    { delayed := false, result := .error .weakPassword, storedUser := stored }
  else if jsTrim name = "" then
    { delayed := false, result := .error .invalidCredentials, storedUser := stored }
  else
    let mockUser : User :=
      { id := freshId
        email := jsTrim (jsToLower email)
        name := jsTrim name
        role := role
        avatar := some (generateAvatarUrl email)
        createdAt := now
        lastLoginAt := some now }
    { delayed := true, result := .ok mockUser, storedUser := some mockUser }

/-- C2 counterexample: register("seller@x.com", "password1", "Jo") with no
explicit role succeeds with role buyer, not the substring-derived seller the
claim asserts (determineUserRole would give seller, but register never calls
it). -/
theorem C2_counterexample :
    ((register "seller@x.com" "password1" "Jo" "user-1" 0 none).result.toOption.map
        (fun u => u.role)) = some UserRole.buyer
    ∧ determineUserRole "seller@x.com" = UserRole.seller
    ∧ UserRole.buyer ≠ UserRole.seller := by
  refine ⟨?_, by decide, by decide⟩
  decide

/-- C2 amended: register("seller@x.com", "password1", "Jo") succeeds with
role buyer (the default - register does not derive the role from the email),
persists the new user, and a store re-initialization from the persisted slot
restores the same session user. -/
theorem C2_register_persists (freshId : String) (now : Nat) (stored0 : Option User)
    (h : freshId ≠ "") :
    ∃ u : User,
      (register "seller@x.com" "password1" "Jo" freshId now stored0).result = .ok u
      ∧ u.role = UserRole.buyer
      ∧ u.email = "seller@x.com"
      ∧ (register "seller@x.com" "password1" "Jo" freshId now stored0).storedUser = some u
      ∧ initializeAuth
          (register "seller@x.com" "password1" "Jo" freshId now stored0).storedUser
        = some u := by
  have hval : isValidEmail "seller@x.com" = true := by decide
  have hpw : validatePassword "password1" = true := by decide
  have hname : jsTrim "Jo" = "Jo" := by decide
  have hlower : jsTrim (jsToLower "seller@x.com") = "seller@x.com" := by decide
  refine ⟨{ id := freshId
            email := "seller@x.com"
            name := "Jo"
            role := .buyer
            avatar := some (generateAvatarUrl "seller@x.com")
            createdAt := now
            lastLoginAt := some now }, ?_, rfl, rfl, ?_, ?_⟩
  · simp [register, hval, hpw, hname, hlower]
  · simp [register, hval, hpw, hname, hlower]
  · simp [register, hval, hpw, hname, hlower, initializeAuth, parseUserData, h]

/-- Witness for C2's amended statement at a concrete fresh identifier. -/
theorem C2_register_persists_witness :
    ("user-2" : String) ≠ ""
    ∧ ∃ u : User,
        (register "seller@x.com" "password1" "Jo" "user-2" 0 none).result = .ok u
        ∧ u.role = UserRole.buyer
        ∧ u.email = "seller@x.com"
        ∧ (register "seller@x.com" "password1" "Jo" "user-2" 0 none).storedUser = some u
        ∧ initializeAuth
            (register "seller@x.com" "password1" "Jo" "user-2" 0 none).storedUser
          = some u :=
  ⟨by decide, C2_register_persists "user-2" 0 none (by decide)⟩

/-- C6: for every email failing the format check (and any password), login
fails with the invalid-email error before the artificial delay is awaited,
leaving the persisted session slot untouched. -/
theorem C6_login_invalid_email (email password freshId : String) (now : Nat)
    (stored : Option User) (h : isValidEmail email = false) :
    (login email password freshId now stored).delayed = false
    ∧ (login email password freshId now stored).result
        = .error AuthErrorType.invalidEmail
    ∧ (login email password freshId now stored).storedUser = stored := by
  simp [login, h]

/-- Witness for C6 at login("not-an-email", "pw"). -/
theorem C6_login_invalid_email_witness :
    isValidEmail "not-an-email" = false
    ∧ (login "not-an-email" "pw" "user-3" 0 none).delayed = false
    ∧ (login "not-an-email" "pw" "user-3" 0 none).result
        = .error AuthErrorType.invalidEmail
    ∧ (login "not-an-email" "pw" "user-3" 0 none).storedUser = none := by
  have h : isValidEmail "not-an-email" = false := by decide
  have hc := C6_login_invalid_email "not-an-email" "pw" "user-3" 0 none h
  exact ⟨h, hc.1, hc.2.1, hc.2.2⟩

/-- Order status (OrdersPage.Order, status field). -/
inductive OrderStatus where
  | completed
  | processing
  | failed
deriving Repr, DecidableEq

/-- A persisted order (OrdersPage.Order); its items share the payment
line-item shape. -/
structure Order where
  id : String
  transactionId : String
  items : List PaymentLineItem
  total : ℚ
  paymentMethod : PaymentMethod
  date : Nat
  status : OrderStatus
deriving Repr, DecidableEq

/-- The order payload handed over by checkout navigation (orderData). -/
structure OrderData where
  transactionId : String
  items : List PaymentLineItem
  total : ℚ
  paymentMethod : PaymentMethod
  date : Nat
deriving Repr, DecidableEq

/-- recordOrder (the OrdersPage order-loading effect with orderData
present): a fresh order with status forced to completed is prepended to the
persisted list, which is then written back. -/
def recordOrder (orders : List Order) (d : OrderData) (now : Nat) : List Order :=
  { id := "order_" ++ toString now
    transactionId := d.transactionId
    items := d.items
    total := d.total
    paymentMethod := d.paymentMethod
    date := d.date
    status := .completed } :: orders

/-- listOrders (the OrdersPage order-loading effect without orderData): the
persisted list is returned as stored, most-recent-first. -/
def listOrders (orders : List Order) : List Order :=
  orders

/-- A sequence of recordOrder calls against the persisted list. -/
def runRecords (orders : List Order) (ds : List (OrderData × Nat)) : List Order :=
  ds.foldl (fun acc dn => recordOrder acc dn.1 dn.2) orders

/-- C8: recordOrder prepends exactly one new order with status forced to
completed; listOrders returns the persisted list unchanged; and because no
operation updates or deletes an order, after any sequence of recordOrder
calls the previously recorded orders remain, unchanged and in order, as a
suffix of the list. -/
theorem C8_orders_append_only (orders : List Order) (ds : List (OrderData × Nat))
    (d : OrderData) (now : Nat) :
    (∃ newOrder, recordOrder orders d now = newOrder :: orders
      ∧ newOrder.status = OrderStatus.completed)
    ∧ listOrders (runRecords orders ds) = runRecords orders ds
    ∧ orders <:+ runRecords orders ds := by
  refine ⟨⟨_, rfl, rfl⟩, rfl, ?_⟩
  induction ds generalizing orders with
  | nil => exact List.suffix_refl orders
  | cons dn rest ih =>
    have hstep : orders <:+ recordOrder orders dn.1 dn.2 :=
      List.suffix_cons _ orders
    exact hstep.trans (ih (recordOrder orders dn.1 dn.2))

end NotehavenShop
